import Mathlib

set_option linter.unusedVariables false

/-!
Verification development for the `iss_spotter` repository.

The program chains three HTTP lookups (own IP address → geographic
coordinates → ISS fly-over times).  `src/iss.js` implements the chain with
callbacks; `src/unnamed/part_000` implements the same chain with promises.
This file embeds both implementations over an explicit model of the
observed HTTP exchanges and proves the specification's claims about them.
-/

/-- Character for a decimal digit value below ten. -/
def digitChar : Nat → Char
  | 0 => '0'
  | 1 => '1'
  | 2 => '2'
  | 3 => '3'
  | 4 => '4'
  | 5 => '5'
  | 6 => '6'
  | 7 => '7'
  | 8 => '8'
  | _ => '9'

/-- Decimal digits of `n`, most significant first.  The first argument is
recursion fuel; any fuel at least the number of digits of `n` (in
particular fuel `n` itself) yields all digits. -/
def natDigitsAux : Nat → Nat → List Char
  | 0, _ => []
  | fuel + 1, n => if n = 0 then [] else natDigitsAux fuel (n / 10) ++ [digitChar (n % 10)]

/-- Decimal rendering of a natural number, as JavaScript template-literal
interpolation prints a nonnegative integer such as a status code. -/
def natToString (n : Nat) : String :=
  if n = 0 then "0" else ⟨natDigitsAux n n⟩

/-- JavaScript values as this program observes them: the JSON universe
plus `undefined` (the result of reading an absent property).  Numbers are
modelled as rationals; every number appearing in this development is an
exact decimal. -/
inductive JVal where
  | undefined
  | jnull
  | jbool (b : Bool)
  | jnum (q : Rat)
  | jstr (s : String)
  | jarr (elems : List JVal)
  | jobj (fields : List (String × JVal))

/-- Whether a value is `null` or `undefined`; reading any property of such
a value throws a `TypeError`. -/
def isNullish : JVal → Bool
  | .jnull => true
  | .undefined => true
  | _ => false

/-- JavaScript property read `v.k` on a non-nullish `v`: on an object, the
last binding of the key (`JSON.parse` keeps the last duplicate key); on
any other non-nullish value, `undefined`. -/
def jsGet (v : JVal) (k : String) : JVal :=
  match v with
  | .jobj fields =>
    match fields.reverse.find? (fun p => p.1 == k) with
    | some p => p.2
    | none => .undefined
  | _ => .undefined

/-- JavaScript truthiness, as tested by `if (!parsedBody.success)`.
`undefined`, `null`, `false`, `0` and the empty string are falsy;
everything else in the modelled universe is truthy. -/
def truthy : JVal → Bool
  | .undefined => false
  | .jnull => false
  | .jbool b => b
  | .jnum q => decide (q ≠ 0)
  | .jstr s => decide (s ≠ "")
  | .jarr _ => true
  | .jobj _ => true

/-- JavaScript number printing, modelled for rationals with a finite
decimal expansion of at most ten places (every number in this development
is such a decimal); other rationals fall back to a fraction rendering.
The divisibility test is written as a remainder check so that it
evaluates by reduction. -/
def jsNumToString (q : Rat) : String :=
  let sign := if q.num < 0 then "-" else ""
  let n := q.num.natAbs
  match (List.range 11).find? (fun k => 10 ^ k % q.den == 0) with
  | some 0 => sign ++ natToString n
  | some (k + 1) =>
    let scaled := n * (10 ^ (k + 1) / q.den)
    let ds := natDigitsAux scaled scaled
    let ds := List.replicate (k + 2 - ds.length) '0' ++ ds
    sign ++ ⟨ds.take (ds.length - (k + 1))⟩ ++ "." ++ ⟨ds.drop (ds.length - (k + 1))⟩
  | none => sign ++ natToString n ++ "/" ++ natToString q.den

mutual

/-- JavaScript string coercion of a value, as performed by template-literal
interpolation.  Array elements print recursively, `null` and `undefined`
elements print as the empty string, and elements are joined with commas. -/
def jsToString : JVal → String
  | .undefined => "undefined"
  | .jnull => "null"
  | .jbool b => cond b "true" "false"
  | .jnum q => jsNumToString q
  | .jstr s => s
  | .jobj _ => "[object Object]"
  | .jarr elems => String.intercalate "," (jsElems elems)

/-- The rendered elements of an array under JavaScript string coercion. -/
def jsElems : List JVal → List String
  | [] => []
  | x :: xs =>
    (match x with
     | .undefined => ""
     | .jnull => ""
     | x => jsToString x) :: jsElems xs

end

/-- A wire response body: the raw string handed to the callback, paired
with the result of `JSON.parse` on it (`none` when parsing throws).  The
parser itself is not embedded; concrete scenarios instantiate the two
components coherently. -/
structure Wire where
  raw : String
  parsed : Option JVal

/-- A JavaScript `Error` value, identified by its message. -/
structure Error where
  message : String
deriving DecidableEq

/-- One observed HTTP exchange, as the `request` library reports it to its
callback: a transport-level failure, or a response with a status code and
a body. -/
inductive HttpResult where
  | transportError (e : Error)
  | response (statusCode : Nat) (body : Wire)

/-- What one call of a callback-style function does: either it invokes the
callback exactly once with the JavaScript pair `(error, value)` (`none`
models JavaScript `null`), or an exception escapes it (`crash`). -/
inductive Outcome (α : Type) where
  | callback (err : Option Error) (val : Option α)
  | crash

/-- The object literal with `latitude` and `longitude` built by
`fetchCoordsByIp`. -/
structure GeoLocation where
  latitude : JVal
  longitude : JVal

/-- `fetchMyIP` of `src/iss.js`, as a function of the HTTP exchange it
observes.  Transport errors and non-200 statuses are passed to the
callback as errors; otherwise the body is parsed and its `ip` property is
passed back (a parse failure, or a parse result of `null`, throws). -/
def fetchMyIP (r : HttpResult) : Outcome JVal :=
  match r with
  | .transportError e => .callback (some e) none
  | .response statusCode body =>
    if statusCode ≠ 200 then
      .callback (some ⟨"Status Code " ++ natToString statusCode ++
        " when fetching IP. Response " ++ body.raw⟩) none
    else
      match body.parsed with
      | none => .crash
      | some parsedBody =>
        if isNullish parsedBody then .crash
        else .callback none (some (jsGet parsedBody "ip"))

/-- `fetchCoordsByIp` of `src/iss.js`.  The `ip` argument only feeds the
request URL (the exchange itself is the `r` argument), so it is unused
here.  The status code is never inspected; the parsed body's `success`
flag decides between the error callback (whose message interpolates the
body's `success`, `message` and `ip` properties) and the success callback
with the object of the body's `latitude` and `longitude`. -/
def fetchCoordsByIp (ip : JVal) (r : HttpResult) : Outcome GeoLocation :=
  match r with
  | .transportError e => .callback (some e) none
  | .response statusCode body =>
    match body.parsed with
    | none => .crash
    | some parsedBody =>
      if isNullish parsedBody then .crash
      else if truthy (jsGet parsedBody "success") = false then
        .callback (some ⟨"It didn't work! Error: Success status was " ++
          jsToString (jsGet parsedBody "success") ++ ". Server message says: " ++
          jsToString (jsGet parsedBody "message") ++ " when fetching for IP " ++
          jsToString (jsGet parsedBody "ip")⟩) none
      else
        .callback none (some ⟨jsGet parsedBody "latitude", jsGet parsedBody "longitude"⟩)

/-- `fetchISSFlyOverTimes` of `src/iss.js`.  The `coords` argument only
feeds the request URL.  A body equal to the literal string
`invalid coordinates`, or a non-200 status, is passed to the callback as
an error; otherwise the body is parsed and its `response` property is
passed back (a parse failure, or a parse result of `null`, throws). -/
def fetchISSFlyOverTimes (coords : GeoLocation) (r : HttpResult) : Outcome JVal :=
  match r with
  | .transportError e => .callback (some e) none
  | .response statusCode body =>
    if body.raw = "invalid coordinates" ∨ statusCode ≠ 200 then
      .callback (some ⟨"You have entered invalid coordinates " ++ body.raw ++
        ", with status code " ++ natToString statusCode⟩) none
    else
      match body.parsed with
      | none => .crash
      | some parsedBody =>
        if isNullish parsedBody then .crash
        else .callback none (some (jsGet parsedBody "response"))

/-- The three upstream exchanges one run of the pipeline observes, in call
order: the IP lookup response, the geolocation response and the fly-over
response. -/
structure Env where
  addressRes : HttpResult
  geoRes : HttpResult
  passRes : HttpResult

/-- `nextISSTimesForMyLocation` of `src/iss.js`: `fetchMyIP`, then
`fetchCoordsByIp` on the returned IP, then `fetchISSFlyOverTimes` on the
returned location; each stage's error callback is forwarded unchanged with
a `null` value and stops the chain.  The `Option.getD` defaults convert
the callback value slot back to a JavaScript value; they are unreachable
because no stage ever calls back `(null, null)`. -/
def nextISSTimesForMyLocation (env : Env) : Outcome JVal :=
  match fetchMyIP env.addressRes with
  | .crash => .crash
  | .callback (some e) _ => .callback (some e) none
  | .callback none ip =>
    match fetchCoordsByIp (ip.getD .jnull) env.geoRes with
    | .crash => .crash
    | .callback (some e) _ => .callback (some e) none
    | .callback none location =>
      match fetchISSFlyOverTimes (location.getD ⟨.jnull, .jnull⟩) env.passRes with
      | .crash => .crash
      | .callback (some e) _ => .callback (some e) none
      | .callback none flyOver => .callback none flyOver

/-- The three stages of the pipeline, for recording which leaf operations
a run invokes. -/
inductive Stage where
  | address
  | geo
  | pass
deriving DecidableEq

/-- `nextISSTimesForMyLocation` instrumented with the list of leaf
operations the run invokes, in invocation order.  The control flow is the
same as `nextISSTimesForMyLocation`; each stage is appended to the trace
exactly when the source calls the corresponding fetch function. -/
def nextISSTimesTraced (env : Env) : Outcome JVal × List Stage :=
  match fetchMyIP env.addressRes with
  | .crash => (.crash, [.address])
  | .callback (some e) _ => (.callback (some e) none, [.address])
  | .callback none ip =>
    match fetchCoordsByIp (ip.getD .jnull) env.geoRes with
    | .crash => (.crash, [.address, .geo])
    | .callback (some e) _ => (.callback (some e) none, [.address, .geo])
    | .callback none location =>
      match fetchISSFlyOverTimes (location.getD ⟨.jnull, .jnull⟩) env.passRes with
      | .crash => (.crash, [.address, .geo, .pass])
      | .callback (some e) _ => (.callback (some e) none, [.address, .geo, .pass])
      | .callback none flyOver => (.callback none flyOver, [.address, .geo, .pass])

/-- The `request-promise-native` contract (default `simple` mode), on one
observed exchange: the promise resolves with the response body on a 2xx
status and rejects on a transport failure or any other status. -/
def requestPromise (r : HttpResult) : Except Error Wire :=
  match r with
  | .transportError e => .error e
  | .response statusCode body =>
    if 200 ≤ statusCode ∧ statusCode < 300 then .ok body
    else .error ⟨"StatusCodeError: " ++ natToString statusCode⟩

/-- `fetchMyIP` of `src/unnamed/part_000`: a bare request for the IP
lookup, resolving with the raw body. -/
def fetchMyIPPromise (r : HttpResult) : Except Error Wire :=
  requestPromise r

/-- `fetchCoordsByIP` of `src/unnamed/part_000`: parses the previous body
to read its `ip` (an exception thrown here — a parse failure, or a
property read on `null` — rejects the promise), then requests the
geolocation exchange. -/
def fetchCoordsByIPPromise (body : Wire) (r : HttpResult) : Except Error Wire :=
  match body.parsed with
  | none => .error ⟨"SyntaxError: Unexpected token in JSON"⟩
  | some parsedBody =>
    if isNullish parsedBody then .error ⟨"TypeError: cannot read properties of null"⟩
    else requestPromise r

/-- `fetchISSFlyOverTimes` of `src/unnamed/part_000`: destructures
`latitude` and `longitude` from the parsed previous body (throwing on a
parse failure or a nullish value rejects the promise), then requests the
fly-over exchange. -/
def fetchISSFlyOverTimesPromise (body : Wire) (r : HttpResult) : Except Error Wire :=
  match body.parsed with
  | none => .error ⟨"SyntaxError: Unexpected token in JSON"⟩
  | some parsedBody =>
    if isNullish parsedBody then .error ⟨"TypeError: cannot destructure null"⟩
    else requestPromise r

/-- `nextISSTimesForMyLocation` of `src/unnamed/part_000`: the promise
chain `fetchMyIP().then(fetchCoordsByIP).then(fetchISSFlyOverTimes)`
followed by extracting `response` from the parsed final body.  Each
`.then` is the short-circuiting bind of the rejection monad. -/
def nextISSTimesForMyLocationPromise (env : Env) : Except Error JVal :=
  match fetchMyIPPromise env.addressRes with
  | .error e => .error e
  | .ok body1 =>
    match fetchCoordsByIPPromise body1 env.geoRes with
    | .error e => .error e
    | .ok body2 =>
      match fetchISSFlyOverTimesPromise body2 env.passRes with
      | .error e => .error e
      | .ok data =>
        match data.parsed with
        | none => .error ⟨"SyntaxError: Unexpected token in JSON"⟩
        | some parsedData =>
          if isNullish parsedData then .error ⟨"TypeError: cannot destructure null"⟩
          else .ok (jsGet parsedData "response")

/-- The IP-lookup response body of the specification's success scenario. -/
def ipWire : Wire :=
  ⟨"\x7b\"ip\":\"162.245.144.188\"\x7d", some (.jobj [("ip", .jstr "162.245.144.188")])⟩

/-- The geolocation response body of the specification's success scenario. -/
def geoWire : Wire :=
  ⟨"\x7b\"success\":true,\"latitude\":38.91,\"longitude\":-77.04\x7d",
   some (.jobj [("success", .jbool true), ("latitude", .jnum (mkRat 3891 100)),
     ("longitude", .jnum (mkRat (-7704) 100))])⟩

/-- The fly-over response body of the specification's success scenario. -/
def passWire : Wire :=
  ⟨"\x7b\"response\":[\x7b\"risetime\":134564234,\"duration\":600\x7d]\x7d",
   some (.jobj [("response", .jarr [.jobj [("risetime", .jnum 134564234),
     ("duration", .jnum 600)]])])⟩

/-- The three exchanges of the specification's success scenario. -/
def successEnv : Env :=
  ⟨.response 200 ipWire, .response 200 geoWire, .response 200 passWire⟩

/-- The pass list the success scenario produces. -/
def successPassList : JVal :=
  .jarr [.jobj [("risetime", .jnum 134564234), ("duration", .jnum 600)]]

/-- The IP string of the success scenario, as a JavaScript value. -/
def successIp : JVal := .jstr "162.245.144.188"

/-- The location object of the success scenario. -/
def successLocation : GeoLocation := ⟨.jnum (mkRat 3891 100), .jnum (mkRat (-7704) 100)⟩

/-- A transport failure used in failure scenarios. -/
def boomError : Error := ⟨"boom"⟩

/-- An environment whose first exchange fails at the transport level. -/
def addressFailEnv : Env :=
  ⟨.transportError boomError, .response 200 geoWire, .response 200 passWire⟩

/-- The geolocation failure body of the specification's failure scenario:
`success` is `false` and the diagnostic message is `invalid ip`. -/
def geoFailWire : Wire :=
  ⟨"\x7b\"success\":false,\"message\":\"invalid ip\"\x7d",
   some (.jobj [("success", .jbool false), ("message", .jstr "invalid ip")])⟩

/-- An environment whose geolocation exchange reports a logical failure. -/
def geoFailEnv : Env :=
  ⟨.response 200 ipWire, .response 200 geoFailWire, .response 200 passWire⟩

/-- An environment whose fly-over exchange returns the literal
invalid-coordinates marker body. -/
def invalidCoordsEnv : Env :=
  ⟨.response 200 ipWire, .response 200 geoWire,
   .response 400 ⟨"invalid coordinates", none⟩⟩

/-- A body that `JSON.parse` rejects. -/
def malformedWire : Wire := ⟨"oops", none⟩

/-- A pass-prediction body whose `response` field is JSON `null`. -/
def nullResponseWire : Wire :=
  ⟨"\x7b\"response\":null\x7d", some (.jobj [("response", .jnull)])⟩

/-- An environment whose fly-over body carries a null `response` field:
the whole chain succeeds and the orchestrator's callback receives the
JavaScript `null` value as its result. -/
def nullPassEnv : Env :=
  ⟨.response 200 ipWire, .response 200 geoWire, .response 200 nullResponseWire⟩

example : nextISSTimesForMyLocation successEnv = .callback none (some successPassList) := rfl
example : nextISSTimesForMyLocationPromise successEnv = .ok successPassList := rfl
example : natToString 404 = "404" := rfl
example : jsToString (.jstr "invalid ip") = "invalid ip" := rfl
example : jsNumToString (mkRat 3891 100) = "38.91" := rfl
example : jsNumToString (mkRat (-7704) 100) = "-77.04" := rfl
example : jsNumToString (600 : Rat) = "600" := rfl
example : jsNumToString (mkRat 1 2) = "0.5" := rfl

/-- Forwarding of a first-stage callback error by the orchestrator. -/
theorem nextISS_err_address (env : Env) (e : Error) (v : Option JVal)
    (h : fetchMyIP env.addressRes = .callback (some e) v) :
    nextISSTimesForMyLocation env = .callback (some e) none := by
  simp only [nextISSTimesForMyLocation, h]

/-- Forwarding of a second-stage callback error by the orchestrator. -/
theorem nextISS_err_geo (env : Env) (ip : Option JVal) (e : Error) (v : Option GeoLocation)
    (h1 : fetchMyIP env.addressRes = .callback none ip)
    (h2 : fetchCoordsByIp (ip.getD .jnull) env.geoRes = .callback (some e) v) :
    nextISSTimesForMyLocation env = .callback (some e) none := by
  simp only [nextISSTimesForMyLocation, h1, h2]

/-- Forwarding of a third-stage callback error by the orchestrator. -/
theorem nextISS_err_pass (env : Env) (ip : Option JVal) (location : Option GeoLocation)
    (e : Error) (v : Option JVal)
    (h1 : fetchMyIP env.addressRes = .callback none ip)
    (h2 : fetchCoordsByIp (ip.getD .jnull) env.geoRes = .callback none location)
    (h3 : fetchISSFlyOverTimes (location.getD ⟨.jnull, .jnull⟩) env.passRes =
      .callback (some e) v) :
    nextISSTimesForMyLocation env = .callback (some e) none := by
  simp only [nextISSTimesForMyLocation, h1, h2, h3]

/-- The orchestrator succeeds exactly when the three stages succeed in
sequence, each on the value the previous stage passed forward. -/
theorem nextISS_ok_iff (env : Env) (flyOver : Option JVal) :
    nextISSTimesForMyLocation env = .callback none flyOver ↔
      ∃ ip location,
        fetchMyIP env.addressRes = .callback none ip ∧
        fetchCoordsByIp (ip.getD .jnull) env.geoRes = .callback none location ∧
        fetchISSFlyOverTimes (location.getD ⟨.jnull, .jnull⟩) env.passRes =
          .callback none flyOver := by
  constructor
  · intro h
    unfold nextISSTimesForMyLocation at h
    cases h1 : fetchMyIP env.addressRes with
    | crash => rw [h1] at h; simp at h
    | callback e1 v1 =>
      rw [h1] at h
      cases e1 with
      | some e => simp at h
      | none =>
        simp only [] at h
        cases h2 : fetchCoordsByIp (v1.getD .jnull) env.geoRes with
        | crash => rw [h2] at h; simp at h
        | callback e2 v2 =>
          rw [h2] at h
          cases e2 with
          | some e => simp at h
          | none =>
            simp only [] at h
            cases h3 : fetchISSFlyOverTimes (v2.getD ⟨.jnull, .jnull⟩) env.passRes with
            | crash => rw [h3] at h; simp at h
            | callback e3 v3 =>
              rw [h3] at h
              cases e3 with
              | some e => simp at h
              | none =>
                simp only [] at h
                exact ⟨v1, v2, rfl, h2, h3.trans h⟩
  · rintro ⟨ip, location, h1, h2, h3⟩
    simp only [nextISSTimesForMyLocation, h1, h2, h3]

/-- Every callback `fetchMyIP` performs carries exactly one of an error or
a value. -/
theorem fetchMyIP_exclusive (r : HttpResult) (e : Option Error) (v : Option JVal)
    (h : fetchMyIP r = .callback e v) :
    (∃ er, e = some er ∧ v = none) ∨ (e = none ∧ ∃ x, v = some x) := by
  cases r with
  | transportError er =>
    simp only [fetchMyIP] at h
    injection h with he hv
    exact Or.inl ⟨er, he.symm, hv.symm⟩
  | response statusCode body =>
    simp only [fetchMyIP] at h
    split at h
    · injection h with he hv
      exact Or.inl ⟨_, he.symm, hv.symm⟩
    · split at h
      · exact Outcome.noConfusion h
      · split at h
        · exact Outcome.noConfusion h
        · injection h with he hv
          exact Or.inr ⟨he.symm, _, hv.symm⟩

/-- Every callback `fetchCoordsByIp` performs carries exactly one of an
error or a value. -/
theorem fetchCoordsByIp_exclusive (ip : JVal) (r : HttpResult) (e : Option Error)
    (v : Option GeoLocation) (h : fetchCoordsByIp ip r = .callback e v) :
    (∃ er, e = some er ∧ v = none) ∨ (e = none ∧ ∃ x, v = some x) := by
  cases r with
  | transportError er =>
    simp only [fetchCoordsByIp] at h
    injection h with he hv
    exact Or.inl ⟨er, he.symm, hv.symm⟩
  | response statusCode body =>
    simp only [fetchCoordsByIp] at h
    split at h
    · exact Outcome.noConfusion h
    · split at h
      · exact Outcome.noConfusion h
      · split at h
        · injection h with he hv
          exact Or.inl ⟨_, he.symm, hv.symm⟩
        · injection h with he hv
          exact Or.inr ⟨he.symm, _, hv.symm⟩

/-- Every callback `fetchISSFlyOverTimes` performs carries exactly one of
an error or a value. -/
theorem fetchISSFlyOverTimes_exclusive (coords : GeoLocation) (r : HttpResult)
    (e : Option Error) (v : Option JVal)
    (h : fetchISSFlyOverTimes coords r = .callback e v) :
    (∃ er, e = some er ∧ v = none) ∨ (e = none ∧ ∃ x, v = some x) := by
  cases r with
  | transportError er =>
    simp only [fetchISSFlyOverTimes] at h
    injection h with he hv
    exact Or.inl ⟨er, he.symm, hv.symm⟩
  | response statusCode body =>
    simp only [fetchISSFlyOverTimes] at h
    split at h
    · injection h with he hv
      exact Or.inl ⟨_, he.symm, hv.symm⟩
    · split at h
      · exact Outcome.noConfusion h
      · split at h
        · exact Outcome.noConfusion h
        · injection h with he hv
          exact Or.inr ⟨he.symm, _, hv.symm⟩

/-- Every callback the orchestrator performs carries exactly one of an
error or a value. -/
theorem nextISS_exclusive (env : Env) (e : Option Error) (v : Option JVal)
    (h : nextISSTimesForMyLocation env = .callback e v) :
    (∃ er, e = some er ∧ v = none) ∨ (e = none ∧ ∃ x, v = some x) := by
  unfold nextISSTimesForMyLocation at h
  cases h1 : fetchMyIP env.addressRes with
  | crash => rw [h1] at h; exact Outcome.noConfusion h
  | callback e1 v1 =>
    rw [h1] at h
    cases e1 with
    | some e => injection h with he hv; exact Or.inl ⟨_, he.symm, hv.symm⟩
    | none =>
      simp only [] at h
      cases h2 : fetchCoordsByIp (v1.getD .jnull) env.geoRes with
      | crash => rw [h2] at h; exact Outcome.noConfusion h
      | callback e2 v2 =>
        rw [h2] at h
        cases e2 with
        | some e => injection h with he hv; exact Or.inl ⟨_, he.symm, hv.symm⟩
        | none =>
          simp only [] at h
          cases h3 : fetchISSFlyOverTimes (v2.getD ⟨.jnull, .jnull⟩) env.passRes with
          | crash => rw [h3] at h; exact Outcome.noConfusion h
          | callback e3 v3 =>
            rw [h3] at h
            cases e3 with
            | some e => injection h with he hv; exact Or.inl ⟨_, he.symm, hv.symm⟩
            | none =>
              injection h with he hv
              rcases fetchISSFlyOverTimes_exclusive _ _ _ _ h3 with ⟨er, hee, _⟩ | ⟨_, x, hx⟩
              · exact Option.noConfusion hee
              · exact Or.inr ⟨he.symm, x, by rw [← hv, hx]⟩

/-- The instrumented orchestrator computes the same outcome as the plain
one. -/
theorem nextISSTimesTraced_fst (env : Env) :
    (nextISSTimesTraced env).1 = nextISSTimesForMyLocation env := by
  unfold nextISSTimesTraced nextISSTimesForMyLocation
  cases fetchMyIP env.addressRes with
  | crash => rfl
  | callback e1 v1 =>
    cases e1 with
    | some e => rfl
    | none =>
      simp only []
      cases fetchCoordsByIp (v1.getD .jnull) env.geoRes with
      | crash => rfl
      | callback e2 v2 =>
        cases e2 with
        | some e => rfl
        | none =>
          simp only []
          cases fetchISSFlyOverTimes (v2.getD ⟨.jnull, .jnull⟩) env.passRes with
          | crash => rfl
          | callback e3 v3 => cases e3 <;> rfl

/-- When the first stage calls back an error, the run's trace is just the
address lookup. -/
theorem nextISSTraced_trace_address (env : Env) (e : Error) (v : Option JVal)
    (h : fetchMyIP env.addressRes = .callback (some e) v) :
    (nextISSTimesTraced env).2 = [Stage.address] := by
  simp only [nextISSTimesTraced, h]

/-- When the first stage throws, the run's trace is just the address
lookup. -/
theorem nextISSTraced_trace_address_crash (env : Env)
    (h : fetchMyIP env.addressRes = .crash) :
    (nextISSTimesTraced env).2 = [Stage.address] := by
  simp only [nextISSTimesTraced, h]

/-- No digit character is a comma. -/
theorem digitChar_ne_comma (d : Nat) : digitChar d ≠ ',' := by
  unfold digitChar
  split <;> decide

/-- The digit list of a natural number contains no comma. -/
theorem natDigitsAux_comma (fuel : Nat) : ∀ n, ',' ∉ natDigitsAux fuel n := by
  induction fuel with
  | zero => intro n; simp [natDigitsAux]
  | succ fuel ih =>
    intro n
    unfold natDigitsAux
    split
    · simp
    · simp only [List.mem_append, List.mem_singleton]
      rintro (h | h)
      · exact ih _ h
      · exact digitChar_ne_comma _ h.symm

/-- The decimal rendering of a natural number contains no comma. -/
theorem natToString_comma (n : Nat) : ',' ∉ (natToString n).data := by
  unfold natToString
  split
  · decide
  · exact natDigitsAux_comma n n

/-- Cancellation around a separator that starts with a comma: when the
tails on both sides of the comma-led separator are comma-free, equal
concatenations force the heads and the tails to agree. -/
theorem append_comma_sep_eq (xs ys t t' w : List Char)
    (hw : ',' ∉ w) (ht : ',' ∉ t) (ht' : ',' ∉ t')
    (h : xs ++ (',' :: w) ++ t = ys ++ (',' :: w) ++ t') : xs = ys ∧ t = t' := by
  have hall : ∀ (u : List Char), ',' ∉ u → ∀ c ∈ u.reverse, decide (c ≠ ',') = true := by
    intro u hu c hc
    rw [decide_eq_true_eq]
    intro hc'
    exact hu (hc' ▸ List.mem_reverse.1 hc)
  have hlen : t.length = t'.length := by
    have hrev := congrArg
      (fun l => (List.takeWhile (fun c => decide (c ≠ ',')) l.reverse).length) h
    simp only [List.reverse_append, List.reverse_cons, List.append_assoc,
      List.singleton_append] at hrev
    rw [List.takeWhile_append_of_pos (hall t ht), List.takeWhile_append_of_pos (hall w hw),
      List.takeWhile_cons_of_neg (by decide), List.takeWhile_append_of_pos (hall t' ht'),
      List.takeWhile_append_of_pos (hall w hw), List.takeWhile_cons_of_neg (by decide)] at hrev
    simp only [List.length_append, List.length_reverse, List.append_nil] at hrev
    omega
  have hinj := List.append_inj' h hlen
  exact ⟨List.append_cancel_right hinj.1, hinj.2⟩

/-- The fly-over error template is injective in the interpolated body:
two instances with different bodies are different messages, because the
separator contributes the final comma and status-code digits contain
none. -/
theorem flyover_template_injective (b b' : String) (s s' : Nat) (hne : b ≠ b') :
    "You have entered invalid coordinates " ++ b ++ ", with status code " ++ natToString s ≠
      "You have entered invalid coordinates " ++ b' ++ ", with status code " ++ natToString s' := by
  intro h
  apply hne
  have hd := congrArg String.data h
  simp only [String.data_append, List.append_assoc] at hd
  have hd' := List.append_cancel_left hd
  rw [← List.append_assoc, ← List.append_assoc] at hd'
  have hsplit := append_comma_sep_eq _ _ _ _ _ (by decide)
    (natToString_comma s) (natToString_comma s') hd'
  exact String.ext hsplit.1

/-- A value whose property read yields anything but `undefined` is not
nullish. -/
theorem isNullish_false_of_jsGet (v : JVal) (k : String)
    (h : jsGet v k ≠ .undefined) : isNullish v = false := by
  cases v <;> first | rfl | exact absurd rfl h

/-- A value with a truthy property is not nullish. -/
theorem isNullish_false_of_truthy (v : JVal) (k : String)
    (h : truthy (jsGet v k) = true) : isNullish v = false := by
  apply isNullish_false_of_jsGet v k
  intro hu
  rw [hu] at h
  exact Bool.noConfusion h

/-- The error `fetchCoordsByIp` reports when the parsed body's `success`
flag is `false`: its message interpolates the body's diagnostic text. -/
theorem fetchCoordsByIp_service_error (ip : JVal) (statusCode : Nat) (b : Wire)
    (pv : JVal) (m : String)
    (hp : b.parsed = some pv)
    (hs : jsGet pv "success" = .jbool false)
    (hm : jsGet pv "message" = .jstr m) :
    fetchCoordsByIp ip (.response statusCode b) =
      .callback (some ⟨"It didn't work! Error: Success status was " ++ "false" ++
        ". Server message says: " ++ m ++ " when fetching for IP " ++
        jsToString (jsGet pv "ip")⟩) none := by
  have hnn : isNullish pv = false :=
    isNullish_false_of_jsGet pv "success" (by rw [hs]; exact fun hh => JVal.noConfusion hh)
  unfold fetchCoordsByIp
  simp only []
  rw [hp]
  simp [hnn, hs, hm, truthy, jsToString]

/-- The error `fetchISSFlyOverTimes` reports on the invalid-coordinates
marker body or on a non-200 status. -/
theorem fetchISSFlyOverTimes_reject (coords : GeoLocation) (statusCode : Nat) (b : Wire)
    (h : b.raw = "invalid coordinates" ∨ statusCode ≠ 200) :
    fetchISSFlyOverTimes coords (.response statusCode b) =
      .callback (some ⟨"You have entered invalid coordinates " ++ b.raw ++
        ", with status code " ++ natToString statusCode⟩) none := by
  unfold fetchISSFlyOverTimes
  simp only []
  rw [if_pos h]

/-- The successful path of `fetchCoordsByIp`: a parsed body with a truthy
`success` flag yields the body's coordinates, whatever the status code. -/
theorem fetchCoordsByIp_ok (ip : JVal) (statusCode : Nat) (b : Wire) (pv : JVal)
    (hp : b.parsed = some pv) (hs : truthy (jsGet pv "success") = true) :
    fetchCoordsByIp ip (.response statusCode b) =
      .callback none (some ⟨jsGet pv "latitude", jsGet pv "longitude"⟩) := by
  have hnn : isNullish pv = false := isNullish_false_of_truthy pv "success" hs
  unfold fetchCoordsByIp
  simp only []
  rw [hp]
  simp [hnn, hs]

/-- Inversion of a successful `fetchMyIP` callback. -/
theorem fetchMyIP_ok_inv (r : HttpResult) (ip : Option JVal)
    (h : fetchMyIP r = .callback none ip) :
    ∃ body pv, r = .response 200 body ∧ body.parsed = some pv ∧
      isNullish pv = false ∧ ip = some (jsGet pv "ip") := by
  cases r with
  | transportError e =>
    simp only [fetchMyIP] at h
    injection h with he hv
    exact Option.noConfusion he
  | response statusCode body =>
    simp only [fetchMyIP] at h
    split at h
    · injection h with he hv
      exact Option.noConfusion he
    · next hstat =>
      split at h
      · exact Outcome.noConfusion h
      · next pv hpv =>
        split at h
        · exact Outcome.noConfusion h
        · next hnn =>
          injection h with he hv
          exact ⟨body, pv, by rw [not_ne_iff.1 hstat], hpv,
            by simpa using hnn, hv.symm⟩

/-- Inversion of a successful `fetchCoordsByIp` callback. -/
theorem fetchCoordsByIp_ok_inv (ip : JVal) (r : HttpResult) (location : Option GeoLocation)
    (h : fetchCoordsByIp ip r = .callback none location) :
    ∃ statusCode body pv, r = .response statusCode body ∧ body.parsed = some pv ∧
      isNullish pv = false ∧ truthy (jsGet pv "success") = true ∧
      location = some ⟨jsGet pv "latitude", jsGet pv "longitude"⟩ := by
  cases r with
  | transportError e =>
    simp only [fetchCoordsByIp] at h
    injection h with he hv
    exact Option.noConfusion he
  | response statusCode body =>
    simp only [fetchCoordsByIp] at h
    split at h
    · exact Outcome.noConfusion h
    · next pv hpv =>
      split at h
      · exact Outcome.noConfusion h
      · next hnn =>
        split at h
        · injection h with he hv
          exact Option.noConfusion he
        · next hsucc =>
          injection h with he hv
          refine ⟨statusCode, body, pv, rfl, hpv, by simpa using hnn, by simpa using hsucc, hv.symm⟩

/-- Inversion of a successful `fetchISSFlyOverTimes` callback. -/
theorem fetchISSFlyOverTimes_ok_inv (coords : GeoLocation) (r : HttpResult)
    (flyOver : Option JVal)
    (h : fetchISSFlyOverTimes coords r = .callback none flyOver) :
    ∃ body pv, r = .response 200 body ∧ body.raw ≠ "invalid coordinates" ∧
      body.parsed = some pv ∧ isNullish pv = false ∧
      flyOver = some (jsGet pv "response") := by
  cases r with
  | transportError e =>
    simp only [fetchISSFlyOverTimes] at h
    injection h with he hv
    exact Option.noConfusion he
  | response statusCode body =>
    simp only [fetchISSFlyOverTimes] at h
    split at h
    · injection h with he hv
      exact Option.noConfusion he
    · next hcond =>
      push_neg at hcond
      split at h
      · exact Outcome.noConfusion h
      · next pv hpv =>
        split at h
        · exact Outcome.noConfusion h
        · next hnn =>
          injection h with he hv
          exact ⟨body, pv, by rw [hcond.2], hcond.1, hpv, by simpa using hnn, hv.symm⟩

/-- Claim C1: the orchestrator invokes the three lookups in sequence,
passing each result to the next; it succeeds with the pass list exactly
when all three calls succeed, and the first failing call ends the run
with that call's error surfaced unchanged. -/
theorem C1_orchestrator_chain (env : Env) :
    (∀ e v, fetchMyIP env.addressRes = .callback (some e) v →
      nextISSTimesForMyLocation env = .callback (some e) none) ∧
    (∀ ip e v, fetchMyIP env.addressRes = .callback none ip →
      fetchCoordsByIp (ip.getD .jnull) env.geoRes = .callback (some e) v →
      nextISSTimesForMyLocation env = .callback (some e) none) ∧
    (∀ ip location e v, fetchMyIP env.addressRes = .callback none ip →
      fetchCoordsByIp (ip.getD .jnull) env.geoRes = .callback none location →
      fetchISSFlyOverTimes (location.getD ⟨.jnull, .jnull⟩) env.passRes =
        .callback (some e) v →
      nextISSTimesForMyLocation env = .callback (some e) none) ∧
    (∀ flyOver, nextISSTimesForMyLocation env = .callback none flyOver ↔
      ∃ ip location,
        fetchMyIP env.addressRes = .callback none ip ∧
        fetchCoordsByIp (ip.getD .jnull) env.geoRes = .callback none location ∧
        fetchISSFlyOverTimes (location.getD ⟨.jnull, .jnull⟩) env.passRes =
          .callback none flyOver) :=
  ⟨fun e v h => nextISS_err_address env e v h,
   fun ip e v h1 h2 => nextISS_err_geo env ip e v h1 h2,
   fun ip location e v h1 h2 h3 => nextISS_err_pass env ip location e v h1 h2 h3,
   fun flyOver => nextISS_ok_iff env flyOver⟩

/-- Witness for C1 at concrete runs: the success scenario flows through
all three stages, and a transport failure at the first stage is surfaced
unchanged. -/
theorem C1_orchestrator_chain_witness :
    nextISSTimesForMyLocation successEnv = .callback none (some successPassList) ∧
    nextISSTimesForMyLocation addressFailEnv = .callback (some boomError) none :=
  ⟨((C1_orchestrator_chain successEnv).2.2.2 (some successPassList)).mpr
      ⟨some successIp, some successLocation, rfl, rfl, rfl⟩,
   (C1_orchestrator_chain addressFailEnv).1 boomError none rfl⟩

/-- Claim C2: in the concrete success scenario the address lookup yields
the IP string, the geolocation lookup on that address yields the
coordinates, the pass prediction on those coordinates yields the pass
list, and the orchestrator yields exactly that list. -/
theorem C2_success_scenario :
    fetchMyIP successEnv.addressRes = .callback none (some successIp) ∧
    fetchCoordsByIp successIp successEnv.geoRes = .callback none (some successLocation) ∧
    fetchISSFlyOverTimes successLocation successEnv.passRes =
      .callback none (some successPassList) ∧
    nextISSTimesForMyLocation successEnv = .callback none (some successPassList) :=
  ⟨rfl, rfl, rfl, rfl⟩

/-- Claim C3: in every run in which the address lookup fails — by error
callback or by throwing — the geolocation and pass-prediction lookups are
never invoked: the instrumented run's trace is exactly the address stage,
and the instrumentation computes the same outcome as the plain
orchestrator. -/
theorem C3_no_calls_after_address_failure (env : Env) :
    (∀ e v, fetchMyIP env.addressRes = .callback (some e) v →
      (nextISSTimesTraced env).2 = [Stage.address] ∧
      Stage.geo ∉ (nextISSTimesTraced env).2 ∧
      Stage.pass ∉ (nextISSTimesTraced env).2) ∧
    (fetchMyIP env.addressRes = .crash →
      (nextISSTimesTraced env).2 = [Stage.address] ∧
      Stage.geo ∉ (nextISSTimesTraced env).2 ∧
      Stage.pass ∉ (nextISSTimesTraced env).2) ∧
    (nextISSTimesTraced env).1 = nextISSTimesForMyLocation env := by
  refine ⟨fun e v h => ?_, fun h => ?_, nextISSTimesTraced_fst env⟩
  · have ht := nextISSTraced_trace_address env e v h
    exact ⟨ht, by rw [ht]; decide, by rw [ht]; decide⟩
  · have ht := nextISSTraced_trace_address_crash env h
    exact ⟨ht, by rw [ht]; decide, by rw [ht]; decide⟩

/-- Witness for C3: with a transport failure on the first exchange, only
the address stage appears in the trace. -/
theorem C3_no_calls_after_address_failure_witness :
    (nextISSTimesTraced addressFailEnv).2 = [Stage.address] ∧
    Stage.geo ∉ (nextISSTimesTraced addressFailEnv).2 ∧
    Stage.pass ∉ (nextISSTimesTraced addressFailEnv).2 :=
  (C3_no_calls_after_address_failure addressFailEnv).1 boomError none rfl

/-- Counterexample to claim C8: with a fly-over body whose `response`
field is JSON `null`, the whole chain succeeds and the orchestrator calls
back a null error together with the JavaScript `null` value as its result
— a null error with a null result, not with a non-null one as the claim
states. -/
theorem C8_counterexample :
    nextISSTimesForMyLocation nullPassEnv = .callback none (some JVal.jnull) ∧
    isNullish JVal.jnull = true :=
  ⟨rfl, rfl⟩

/-- Claim C8 as amended: every callback the orchestrator or a leaf
operation performs carries exactly one of a non-null error together with
a null result, or a null error together with the computed result value —
never both an error and a result.  The value accompanying a null error is
the field extracted from the upstream body and may itself be the
JavaScript `null` or `undefined` value (as when the body's `response` or
`ip` field is null or absent); for the geolocation stage it is always the
constructed latitude/longitude object. -/
theorem C8_exclusive_outcomes :
    (∀ r e v, fetchMyIP r = .callback e v →
      (∃ er, e = some er ∧ v = none) ∨ (e = none ∧ ∃ x, v = some x)) ∧
    (∀ ip r e v, fetchCoordsByIp ip r = .callback e v →
      (∃ er, e = some er ∧ v = none) ∨ (e = none ∧ ∃ x, v = some x)) ∧
    (∀ coords r e v, fetchISSFlyOverTimes coords r = .callback e v →
      (∃ er, e = some er ∧ v = none) ∨ (e = none ∧ ∃ x, v = some x)) ∧
    (∀ env e v, nextISSTimesForMyLocation env = .callback e v →
      (∃ er, e = some er ∧ v = none) ∨ (e = none ∧ ∃ x, v = some x)) :=
  ⟨fetchMyIP_exclusive, fetchCoordsByIp_exclusive, fetchISSFlyOverTimes_exclusive,
   nextISS_exclusive⟩

/-- Witness for C8 at a concrete failing exchange. -/
theorem C8_exclusive_outcomes_witness :
    (∃ er, (some boomError : Option Error) = some er ∧ (none : Option JVal) = none) ∨
    ((some boomError : Option Error) = none ∧ ∃ x, (none : Option JVal) = some x) :=
  C8_exclusive_outcomes.1 (.transportError boomError) (some boomError) none rfl

/-- Claim C10: `fetchCoordsByIp` never fails because of the HTTP status
code — every response without transport error whose parsed body has a
truthy success flag yields the body's coordinates, whatever the status
code is. -/
theorem C10_geo_ignores_status (ip : JVal) (statusCode : Nat) (b : Wire) (pv : JVal)
    (hp : b.parsed = some pv) (hs : truthy (jsGet pv "success") = true) :
    fetchCoordsByIp ip (.response statusCode b) =
      .callback none (some ⟨jsGet pv "latitude", jsGet pv "longitude"⟩) :=
  fetchCoordsByIp_ok ip statusCode b pv hp hs

/-- Witness for C10: the geolocation body succeeds even under a 500
status. -/
theorem C10_geo_ignores_status_witness :
    fetchCoordsByIp successIp (.response 500 geoWire) =
      .callback none (some successLocation) :=
  C10_geo_ignores_status successIp 500 geoWire
    (.jobj [("success", .jbool true), ("latitude", .jnum (mkRat 3891 100)),
      ("longitude", .jnum (mkRat (-7704) 100))]) rfl rfl

/-- Claim C4: when the geolocation response's parsed body has `success`
equal to `false`, the orchestrator fails with an error whose message
contains the upstream diagnostic message, and no pass list is produced. -/
theorem C4_geo_failure_message (env : Env) (ip : Option JVal) (statusCode : Nat)
    (b : Wire) (pv : JVal) (m : String)
    (h1 : fetchMyIP env.addressRes = .callback none ip)
    (h2 : env.geoRes = .response statusCode b)
    (hp : b.parsed = some pv)
    (hs : jsGet pv "success" = .jbool false)
    (hm : jsGet pv "message" = .jstr m) :
    ∃ e, nextISSTimesForMyLocation env = .callback (some e) none ∧
      m.data <:+: e.message.data := by
  have herr : fetchCoordsByIp (ip.getD .jnull) env.geoRes =
      .callback (some ⟨"It didn't work! Error: Success status was " ++ "false" ++
        ". Server message says: " ++ m ++ " when fetching for IP " ++
        jsToString (jsGet pv "ip")⟩) none := by
    rw [h2]
    exact fetchCoordsByIp_service_error (ip.getD .jnull) statusCode b pv m hp hs hm
  refine ⟨_, nextISS_err_geo env ip _ none h1 herr, ?_⟩
  refine ⟨("It didn't work! Error: Success status was " ++ "false" ++
    ". Server message says: ").data,
    (" when fetching for IP " ++ jsToString (jsGet pv "ip")).data, ?_⟩
  simp [String.data_append, List.append_assoc]

/-- Witness for C4 at the specification's failure scenario. -/
theorem C4_geo_failure_message_witness :
    ∃ e, nextISSTimesForMyLocation geoFailEnv = .callback (some e) none ∧
      "invalid ip".data <:+: e.message.data :=
  C4_geo_failure_message geoFailEnv (some successIp) 200 geoFailWire
    (.jobj [("success", .jbool false), ("message", .jstr "invalid ip")]) "invalid ip"
    rfl rfl rfl rfl rfl

/-- Claim C5: when the pass-prediction response body is the literal
invalid-coordinates marker, the orchestrator fails with an error
mentioning invalid coordinates, and no pass list is produced. -/
theorem C5_invalid_coordinates_marker (env : Env) (ip : Option JVal)
    (location : Option GeoLocation) (statusCode : Nat) (b : Wire)
    (h1 : fetchMyIP env.addressRes = .callback none ip)
    (h2 : fetchCoordsByIp (ip.getD .jnull) env.geoRes = .callback none location)
    (h3 : env.passRes = .response statusCode b)
    (hb : b.raw = "invalid coordinates") :
    ∃ e, nextISSTimesForMyLocation env = .callback (some e) none ∧
      "invalid coordinates".data <:+: e.message.data := by
  have herr : fetchISSFlyOverTimes (location.getD ⟨.jnull, .jnull⟩) env.passRes =
      .callback (some ⟨"You have entered invalid coordinates " ++ b.raw ++
        ", with status code " ++ natToString statusCode⟩) none := by
    rw [h3]
    exact fetchISSFlyOverTimes_reject _ statusCode b (Or.inl hb)
  refine ⟨_, nextISS_err_pass env ip location _ none h1 h2 herr, ?_⟩
  refine ⟨"You have entered invalid coordinates ".data,
    (", with status code " ++ natToString statusCode).data, ?_⟩
  rw [hb]
  simp [String.data_append, List.append_assoc]

/-- Witness for C5 at a concrete marker response. -/
theorem C5_invalid_coordinates_marker_witness :
    ∃ e, nextISSTimesForMyLocation invalidCoordsEnv = .callback (some e) none ∧
      "invalid coordinates".data <:+: e.message.data :=
  C5_invalid_coordinates_marker invalidCoordsEnv (some successIp) (some successLocation)
    400 ⟨"invalid coordinates", none⟩ rfl rfl rfl rfl

/-- Claim C7: a non-200 pass-prediction response whose body is not the
invalid-coordinates marker makes `fetchISSFlyOverTimes` call back an
error, and that error is distinct from the one produced for any response
whose body is the marker. -/
theorem C7_status_error_distinct (coords coords' : GeoLocation)
    (statusCode statusCode' : Nat) (b b' : Wire)
    (hs : statusCode ≠ 200) (hb : b.raw ≠ "invalid coordinates")
    (hb' : b'.raw = "invalid coordinates") :
    ∃ e e',
      fetchISSFlyOverTimes coords (.response statusCode b) = .callback (some e) none ∧
      fetchISSFlyOverTimes coords' (.response statusCode' b') = .callback (some e') none ∧
      e ≠ e' := by
  refine ⟨_, _, fetchISSFlyOverTimes_reject coords statusCode b (Or.inr hs),
    fetchISSFlyOverTimes_reject coords' statusCode' b' (Or.inl hb'), ?_⟩
  intro hcontra
  have hmsg : "You have entered invalid coordinates " ++ b.raw ++ ", with status code " ++
      natToString statusCode = "You have entered invalid coordinates " ++ b'.raw ++
      ", with status code " ++ natToString statusCode' :=
    congrArg Error.message hcontra
  rw [hb'] at hmsg
  exact flyover_template_injective b.raw "invalid coordinates" statusCode statusCode' hb hmsg

/-- Witness for C7 at concrete responses. -/
theorem C7_status_error_distinct_witness :
    ∃ e e',
      fetchISSFlyOverTimes successLocation (.response 500 malformedWire) =
        .callback (some e) none ∧
      fetchISSFlyOverTimes successLocation (.response 400 ⟨"invalid coordinates", none⟩) =
        .callback (some e') none ∧
      e ≠ e' :=
  C7_status_error_distinct successLocation successLocation 500 400 malformedWire
    ⟨"invalid coordinates", none⟩ (by decide) (by decide) rfl

/-- Counterexample to claim C6: a 200 response whose body `JSON.parse`
rejects makes `fetchMyIP` throw — the callback never receives a response
error. -/
theorem C6_counterexample :
    fetchMyIP (.response 200 malformedWire) = .crash := rfl

/-- Claim C6 as amended: on a success status a body that does not parse
(or parses to `null`) makes `fetchMyIP` throw instead of passing an error
to its callback, while any other parseable body succeeds with the body's
`ip` property — the undefined value when the field is absent.  Only
non-success statuses produce a response error. -/
theorem C6_malformed_payload_amended (b : Wire) :
    (b.parsed = none → fetchMyIP (.response 200 b) = .crash) ∧
    (∀ pv, b.parsed = some pv → isNullish pv = true →
      fetchMyIP (.response 200 b) = .crash) ∧
    (∀ pv, b.parsed = some pv → isNullish pv = false →
      fetchMyIP (.response 200 b) = .callback none (some (jsGet pv "ip"))) := by
  refine ⟨fun hp => ?_, fun pv hp hn => ?_, fun pv hp hn => ?_⟩
  · unfold fetchMyIP
    simp [hp]
  · unfold fetchMyIP
    simp [hp, hn]
  · unfold fetchMyIP
    simp [hp, hn]

/-- Witness for the amended C6: the unparseable body throws, a parseable
body succeeds. -/
theorem C6_malformed_payload_amended_witness :
    fetchMyIP (.response 200 malformedWire) = Outcome.crash ∧
    fetchMyIP (.response 200 ipWire) = .callback none (some successIp) :=
  ⟨(C6_malformed_payload_amended malformedWire).1 rfl,
   (C6_malformed_payload_amended ipWire).2.2
     (.jobj [("ip", .jstr "162.245.144.188")]) rfl rfl⟩

/-- Claim C9: on every run of the same three upstream exchanges in which
both implementations succeed, the callback implementation and the promise
implementation produce the same pass list. -/
theorem C9_implementations_agree (env : Env) (l l' : JVal)
    (h1 : nextISSTimesForMyLocation env = .callback none (some l))
    (h2 : nextISSTimesForMyLocationPromise env = .ok l') : l = l' := by
  rcases (nextISS_ok_iff env (some l)).1 h1 with ⟨ip, location, ha, hg, hp⟩
  rcases fetchMyIP_ok_inv _ _ ha with ⟨b1, v1, hr1, hp1, hn1, hip⟩
  rcases fetchCoordsByIp_ok_inv _ _ _ hg with ⟨s2, b2, v2, hr2, hp2, hn2, hs2, hloc⟩
  rcases fetchISSFlyOverTimes_ok_inv _ _ _ hp with ⟨b3, v3, hr3, hraw3, hp3, hn3, hfly⟩
  injection hfly with hl
  unfold nextISSTimesForMyLocationPromise fetchMyIPPromise fetchCoordsByIPPromise
    fetchISSFlyOverTimesPromise requestPromise at h2
  rw [hr1, hr2, hr3] at h2
  simp [hp1, hn1, hp2, hn2, hp3, hn3] at h2
  split at h2
  · exact Except.noConfusion h2
  · next b2x heq =>
    split at heq
    · injection heq with hb2x
      subst hb2x
      simp [hp2, hn2, hp3, hn3] at h2
      rw [hl, h2]
    · exact Except.noConfusion heq

/-- Witness for C9 at the success scenario. -/
theorem C9_implementations_agree_witness : successPassList = successPassList :=
  C9_implementations_agree successEnv successPassList successPassList rfl rfl
